import Mathlib

/-!
# Payment Accounting & Reporting module — formal model

Shallow embedding of the core of `src/app.py` of the kathib93 repository:
the Breakdown Calculator (`calculate_payment_breakdown`, src/app.py:311-324)
and the Report Aggregator (`generate_comprehensive_report`, src/app.py:326-566).

Monetary quantities are modelled as rationals (`ℚ`): Python's `round(x, 2)`
rounds half to even, which is `roundHalfEven` below applied at two decimal
places.  Python dictionaries (which preserve insertion order) are modelled as
association lists with update-or-append semantics.  Python's `sorted`
(a stable sort) is modelled by `List.insertionSort`, which Mathlib proves
stable; `sorted(..., reverse=True)` is stable sorting with the reversed
comparison.  The report text is modelled as a list of tagged lines (`Line`):
one constructor per `report.append(...)` site, carrying the data interpolated
into that line; the exact surface formatting of each line is cosmetic.
-/

namespace Kathib

/-- Round half to even, as Python's builtin `round` does. -/
def roundHalfEven (y : ℚ) : ℤ :=
  if y - ⌊y⌋ < 1/2 then ⌊y⌋
  else if 1/2 < y - ⌊y⌋ then ⌊y⌋ + 1
  else if ⌊y⌋ % 2 = 0 then ⌊y⌋ else ⌊y⌋ + 1

/-- Python's `round(x, 2)`: round to two decimal places, half to even. -/
def round2 (x : ℚ) : ℚ := (roundHalfEven (100 * x) : ℚ) / 100

/-- src/app.py:311-324.  The `commission_deducted_from` parameter is accepted
(defaulting to `'total'`) and the body applies the default formula. -/
def calculate_payment_breakdown (amount company_rate vat_rate : ℚ)
    (commission_deducted_from : String := "total") : ℚ × ℚ × ℚ :=
  let companyCommission := round2 (amount * company_rate)
  let vatOnCommission := round2 (companyCommission * vat_rate)
  let netToOwner := round2 (amount - companyCommission - vatOnCommission)
  (companyCommission, vatOnCommission, netToOwner)

/-! ## Dates and times -/

/-- A timestamp, as stored in `Payment.date` (a SQL `DateTime`). -/
structure DateTime where
  year : Int
  month : Nat
  day : Nat
  hour : Nat
  minute : Nat
  second : Nat
deriving DecidableEq, Repr

/-- A calendar day, as carried by a `%Y-%m-%d` filter string. -/
structure Date where
  year : Int
  month : Nat
  day : Nat
deriving DecidableEq, Repr

/-- `datetime.strptime(s, '%Y-%m-%d')` produces midnight of the given day. -/
def Date.toMidnight (d : Date) : DateTime := ⟨d.year, d.month, d.day, 0, 0, 0⟩

/-- `.date()`: the calendar-day part of a timestamp. -/
def DateTime.dateOf (t : DateTime) : Date := ⟨t.year, t.month, t.day⟩

/-- Chronological (lexicographic) order on timestamps. -/
def DateTime.le (a b : DateTime) : Prop :=
  a.year < b.year ∨ (a.year = b.year ∧ (a.month < b.month ∨ (a.month = b.month ∧
    (a.day < b.day ∨ (a.day = b.day ∧ (a.hour < b.hour ∨ (a.hour = b.hour ∧
      (a.minute < b.minute ∨ (a.minute = b.minute ∧ a.second ≤ b.second)))))))))

instance : DecidableRel DateTime.le := fun a b => by
  unfold DateTime.le; infer_instance

theorem DateTime.le_total (a b : DateTime) : DateTime.le a b ∨ DateTime.le b a := by
  unfold DateTime.le; omega

theorem DateTime.le_trans {a b c : DateTime} :
    DateTime.le a b → DateTime.le b c → DateTime.le a c := by
  unfold DateTime.le; omega

/-- Day number of a Gregorian calendar date; differences of day numbers model
Python's `(d1 - d2).days` between `date` values. -/
def Date.dayNumber (d : Date) : Int :=
  let y : Int := if d.month ≤ 2 then d.year - 1 else d.year
  let m : Int := if d.month ≤ 2 then (d.month : Int) + 12 else (d.month : Int)
  365 * y + Int.fdiv y 4 - Int.fdiv y 100 + Int.fdiv y 400 +
    Int.fdiv (153 * (m - 3) + 2) 5 + (d.day : Int) - 1

/-! ## Data model

Only the columns read by the reporting core are modelled; the remaining
columns of the SQLAlchemy models (src/app.py:206-236) are pass-through
data never touched by `generate_comprehensive_report`. -/

/-- `Unit` model (src/app.py:212-220): primary key and project reference. -/
structure Unit where
  id : Nat
  project_id : Nat
deriving DecidableEq, Repr

/-- `Project` model (src/app.py:206-210): primary key and name. -/
structure Project where
  id : Nat
  name : String
deriving DecidableEq, Repr

/-- `Payment` model (src/app.py:222-236). -/
structure Payment where
  unit_id : Nat
  payer_type : String
  payer_id : Nat
  amount : ℚ
  date : DateTime
  description : Option String
  company_rate : ℚ
  vat_rate : ℚ
  company_commission : ℚ
  vat_on_commission : ℚ
  net_to_owner : ℚ
deriving DecidableEq, Repr

/-! ## The report's record query (src/app.py:328-340)

The four filters are applied in sequence to the payment store, preserving
store order; the query then orders by `date` descending.  `db.session.get`
by primary key is modelled by `List.find?` on the id. -/

def filter_payments (store : List Payment) (start_date end_date : Option Date)
    (project_id : Option Nat) (payer_type : Option String)
    (units : List Unit) : List Payment :=
  let q1 := match start_date with
    | some d => store.filter (fun p => decide (DateTime.le d.toMidnight p.date))
    | none => store
  let q2 := match end_date with
    | some d => q1.filter (fun p => decide (DateTime.le p.date d.toMidnight))
    | none => q1
  let q3 := match project_id with
    | some i => q2.filter (fun p =>
        (units.find? (fun u => u.id == p.unit_id)).any (fun u => u.project_id == i))
    | none => q2
  match payer_type with
  | some t => q3.filter (fun p => p.payer_type == t)
  | none => q3

/-- `order_by(Payment.date.desc())`: newest first.  The SQL sort is modelled
as the stable descending sort. -/
def date_desc (a b : Payment) : Prop := DateTime.le b.date a.date

instance : DecidableRel date_desc := fun a b =>
  inferInstanceAs (Decidable (DateTime.le b.date a.date))

instance : IsTotal Payment date_desc :=
  ⟨fun a b => (DateTime.le_total b.date a.date).elim Or.inl Or.inr⟩

instance : IsTrans Payment date_desc :=
  ⟨fun _ _ _ h1 h2 => DateTime.le_trans h2 h1⟩

/-! ## Aggregation (src/app.py:342-405)

Python dictionaries preserve insertion order; they are modelled as
association lists where an update touches the existing entry in place and a
new key is appended at the end. -/

/-- Value shape of the `project_stats` dict (src/app.py:353-363). -/
structure ProjStats where
  count : Nat
  total : ℚ
  commissions : ℚ
deriving DecidableEq, Repr

/-- Value shape of the `monthly_stats` dict (src/app.py:366-383). -/
structure MonthStats where
  count : Nat
  total : ℚ
  commissions : ℚ
  owners : Nat
  tenants : Nat
deriving DecidableEq, Repr

/-- Value shape of the `quarterly_stats` dict (src/app.py:367-387). -/
structure QuarterStats where
  count : Nat
  total : ℚ
  commissions : ℚ
deriving DecidableEq, Repr

/-- Ordered-dictionary lookup on an association list. -/
def lookupA {K V : Type} [DecidableEq K] : List (K × V) → K → Option V
  | [], _ => none
  | (k, v) :: rest, key => if k = key then some v else lookupA rest key

/-- `sum(p.amount for p in payments)`; the `if payments else 0` guard in the
code coincides with the empty sum (src/app.py:343). -/
def total_payments (payments : List Payment) : ℚ :=
  (payments.map Payment.amount).sum

/-- src/app.py:344. -/
def total_commissions (payments : List Payment) : ℚ :=
  (payments.map Payment.company_commission).sum

/-- src/app.py:345. -/
def total_vat (payments : List Payment) : ℚ :=
  (payments.map Payment.vat_on_commission).sum

/-- src/app.py:346. -/
def net_to_owners (payments : List Payment) : ℚ :=
  (payments.map Payment.net_to_owner).sum

/-- src/app.py:349. -/
def owner_payments (payments : List Payment) : List Payment :=
  payments.filter (fun p => p.payer_type == "owner")

/-- src/app.py:350. -/
def tenant_payments (payments : List Payment) : List Payment :=
  payments.filter (fun p => p.payer_type == "tenant")

/-- Resolution of a payment's project name (src/app.py:355-358):
`db.session.get(Unit, ...)`, then `db.session.get(Project, ...)` with the
fallback label when the project is missing.  When the *unit* itself is
missing the result is `none` and the record is skipped by the grouping. -/
def resolve_project_name (units : List Unit) (projects : List Project)
    (uid : Nat) : Option String :=
  match units.find? (fun u => u.id == uid) with
  | none => none
  | some u =>
    match projects.find? (fun pr => pr.id == u.project_id) with
    | some pr => some pr.name
    | none => some "غير محدد"

/-- One loop iteration of the per-project accumulation (src/app.py:359-363). -/
def bumpProj (acc : List (String × ProjStats)) (name : String) (amt comm : ℚ) :
    List (String × ProjStats) :=
  match acc with
  | [] => [(name, ⟨1, amt, comm⟩)]
  | (k, st) :: rest =>
    if k = name then
      (k, ⟨st.count + 1, st.total + amt, st.commissions + comm⟩) :: rest
    else (k, st) :: bumpProj rest name amt comm

/-- src/app.py:353-363. -/
def project_stats (payments : List Payment) (units : List Unit)
    (projects : List Project) : List (String × ProjStats) :=
  payments.foldl (fun acc p =>
    match resolve_project_name units projects p.unit_id with
    | none => acc
    | some name => bumpProj acc name p.amount p.company_commission) []

/-- `payment.date.strftime('%Y-%m')` modelled as a `(year, month)` pair;
for four-digit years the code's string sort on `%Y-%m` keys coincides with
the lexicographic order `key_le` below. -/
def month_key (p : Payment) : Int × Nat := (p.date.year, p.date.month)

/-- `f"{year}-Q{(month-1)//3 + 1}"` modelled as a `(year, quarter)` pair. -/
def quarter_key (p : Payment) : Int × Nat :=
  (p.date.year, (p.date.month - 1) / 3 + 1)

/-- One loop iteration of the monthly accumulation (src/app.py:372-383). -/
def bumpMonth (acc : List ((Int × Nat) × MonthStats)) (key : Int × Nat)
    (p : Payment) : List ((Int × Nat) × MonthStats) :=
  match acc with
  | [] => [(key, ⟨1, p.amount, p.company_commission,
      if p.payer_type == "owner" then 1 else 0,
      if p.payer_type == "owner" then 0 else 1⟩)]
  | (k, st) :: rest =>
    if k = key then
      (k, ⟨st.count + 1, st.total + p.amount, st.commissions + p.company_commission,
        if p.payer_type == "owner" then st.owners + 1 else st.owners,
        if p.payer_type == "owner" then st.tenants else st.tenants + 1⟩) :: rest
    else (k, st) :: bumpMonth rest key p

/-- src/app.py:366-383. -/
def monthly_stats (payments : List Payment) : List ((Int × Nat) × MonthStats) :=
  payments.foldl (fun acc p => bumpMonth acc (month_key p) p) []

/-- One loop iteration of the quarterly accumulation (src/app.py:374-387). -/
def bumpQuarter (acc : List ((Int × Nat) × QuarterStats)) (key : Int × Nat)
    (amt comm : ℚ) : List ((Int × Nat) × QuarterStats) :=
  match acc with
  | [] => [(key, ⟨1, amt, comm⟩)]
  | (k, st) :: rest =>
    if k = key then
      (k, ⟨st.count + 1, st.total + amt, st.commissions + comm⟩) :: rest
    else (k, st) :: bumpQuarter rest key amt comm

/-- src/app.py:366-387. -/
def quarterly_stats (payments : List Payment) : List ((Int × Nat) × QuarterStats) :=
  payments.foldl (fun acc p => bumpQuarter acc (quarter_key p) p.amount p.company_commission) []

/-- src/app.py:390. -/
def avg_payment (payments : List Payment) : ℚ :=
  if payments.isEmpty then 0 else total_payments payments / payments.length

/-- src/app.py:391. -/
def avg_commission (payments : List Payment) : ℚ :=
  if payments.isEmpty then 0 else total_commissions payments / payments.length

/-- src/app.py:392. -/
def commission_percentage (payments : List Payment) : ℚ :=
  if 0 < total_payments payments then
    total_commissions payments / total_payments payments * 100
  else 0

/-- src/app.py:457. -/
def owner_percentage (payments : List Payment) : ℚ :=
  if payments.isEmpty then 0
  else ((owner_payments payments).length : ℚ) / payments.length * 100

/-- src/app.py:458. -/
def tenant_percentage (payments : List Payment) : ℚ :=
  if payments.isEmpty then 0
  else ((tenant_payments payments).length : ℚ) / payments.length * 100

/-- Lexicographic order on period keys. -/
def key_le (a b : Int × Nat) : Prop := a.1 < b.1 ∨ (a.1 = b.1 ∧ a.2 ≤ b.2)

instance : DecidableRel key_le := fun a b => by
  unfold key_le; infer_instance

theorem key_le_total (a b : Int × Nat) : key_le a b ∨ key_le b a := by
  unfold key_le; omega

theorem key_le_trans {a b c : Int × Nat} :
    key_le a b → key_le b c → key_le a c := by
  unfold key_le; omega

theorem key_le_refl (a : Int × Nat) : key_le a a := by
  unfold key_le; omega

instance : IsTotal (Int × Nat) key_le := ⟨key_le_total⟩

instance : IsTrans (Int × Nat) key_le := ⟨fun _ _ _ => key_le_trans⟩

/-- `sorted(keys, reverse=True)` comparison. -/
def key_desc (a b : Int × Nat) : Prop := key_le b a

instance : DecidableRel key_desc := fun a b =>
  inferInstanceAs (Decidable (key_le b a))

instance : IsTotal (Int × Nat) key_desc :=
  ⟨fun a b => (key_le_total b a).elim Or.inl Or.inr⟩

instance : IsTrans (Int × Nat) key_desc :=
  ⟨fun _ _ _ h1 h2 => key_le_trans h2 h1⟩

/-- src/app.py:394-405: the trend list; each entry carries the growth-rate
number interpolated into the `"معدل النمو الشهري"` string. -/
def trend_analysis (payments : List Payment) : List ℚ :=
  let monthly := monthly_stats payments
  if 1 < monthly.length then
    let months := List.insertionSort key_le (monthly.map Prod.fst)
    if 2 ≤ months.length then
      match months.reverse with
      | current_month :: prev_month :: _ =>
        let current_total := ((lookupA monthly current_month).getD ⟨0, 0, 0, 0, 0⟩).total
        let prev_total := ((lookupA monthly prev_month).getD ⟨0, 0, 0, 0, 0⟩).total
        if 0 < prev_total then [(current_total - prev_total) / prev_total * 100]
        else []
      | _ => []
    else []
  else []

/-- `sorted(payments, key=lambda x: x.amount, reverse=True)` comparison. -/
def amount_desc (a b : Payment) : Prop := b.amount ≤ a.amount

instance : DecidableRel amount_desc := fun a b =>
  inferInstanceAs (Decidable (b.amount ≤ a.amount))

instance : IsTotal Payment amount_desc :=
  ⟨fun a b => (le_total b.amount a.amount).elim Or.inl Or.inr⟩

instance : IsTrans Payment amount_desc :=
  ⟨fun _ _ _ h1 h2 => le_trans h2 h1⟩

/-- src/app.py:522: the five largest payments, stably sorted by amount. -/
def top_payments (payments : List Payment) : List Payment :=
  (List.insertionSort amount_desc payments).take 5

/-- The deals-per-day KPI (src/app.py:516): record count over the number of
days from the oldest listed payment (the last of the date-descending list)
to the generation date, clamped to at least one day. -/
def deals_per_day (payments : List Payment) (now : DateTime) : ℚ :=
  match payments.getLast? with
  | none => 0
  | some p => (payments.length : ℚ) /
      ((max 1 (now.dateOf.dayNumber - p.date.dateOf.dayNumber + 1) : ℤ) : ℚ)

/-! ## The formatted report (src/app.py:407-566)

Each `report.append(...)` site becomes one `Line` constructor carrying the
data interpolated into that line; the surrounding (Arabic) text, emoji
markers and numeric formatting of a line are cosmetic (spec §6) and are not
repeated here.  The list of lines preserves the exact append order and the
exact conditions under which each line is emitted. -/

inductive Line where
  | boxTop
  | mainTitle
  | boxBottom
  | blank
  | generatedAt (t : DateTime)
  | recordCount (n : Nat)
  | autoStatus
  | filtersHeader
  | rule50
  | filterStart (d : Date)
  | filterEnd (d : Date)
  | filterProject (name : String)
  | filterPayerType (isOwner : Bool)
  | summaryHeader
  | rule50eq
  | totalPaymentsLine (q : ℚ)
  | totalCommissionsLine (q pct : ℚ)
  | totalVatLine (q : ℚ)
  | netToOwnersLine (q : ℚ)
  | avgPaymentLine (q : ℚ)
  | avgCommissionLine (q : ℚ)
  | trendLine (growth : ℚ)
  | payerHeader
  | ownerCountLine (n : Nat) (pct : ℚ)
  | ownerTotalLine (q : ℚ)
  | ownerAvgLine (q : ℚ)
  | tenantCountLine (n : Nat) (pct : ℚ)
  | tenantTotalLine (q : ℚ)
  | tenantAvgLine (q : ℚ)
  | projectsHeader
  | projectNameLine (name : String)
  | projectCountLine (n : Nat)
  | projectTotalLine (q pct : ℚ)
  | projectCommissionsLine (q : ℚ)
  | monthlyHeader
  | monthlyTableHeader
  | rule70
  | monthlyRow (key : Int × Nat) (count owners tenants : Nat) (total commissions : ℚ)
  | quarterlyHeader
  | quarterNameLine (key : Int × Nat)
  | quarterCountLine (n : Nat)
  | quarterTotalLine (q : ℚ)
  | quarterCommissionsLine (q : ℚ)
  | kpiHeader
  | kpiCommissionRate (q : ℚ)
  | kpiAvgDeal (q : ℚ)
  | kpiDealsPerDay (q : ℚ)
  | kpiProjectCount (n : Nat)
  | topHeader
  | topAmountLine (i : Nat) (q : ℚ)
  | topDateLine (d : Date)
  | topPayerLine (isOwner : Bool)
  | topDescriptionLine (s : String)
  | recoHeader
  | recoHighCommission
  | recoLowCommission
  | recoDiversified
  | recoConcentrated
  | recoStrongGrowth
  | recoDecline
  | footerTitle
  | footerLine1
  | footerLine2
  | footerLine3
  | footerContact
  | footerTime (t : DateTime)

/-- src/app.py:411-418. -/
def header_block (now : DateTime) (n : Nat) : List Line :=
  [.boxTop, .mainTitle, .boxBottom, .blank, .generatedAt now, .recordCount n,
   .autoStatus, .blank]

/-- src/app.py:421-435. -/
def filters_block (start_date end_date : Option Date) (project_id : Option Nat)
    (payer_type : Option String) (projects : List Project) : List Line :=
  if start_date.isSome || end_date.isSome || project_id.isSome || payer_type.isSome then
    [.filtersHeader, .rule50]
    ++ (match start_date with | some d => [.filterStart d] | none => [])
    ++ (match end_date with | some d => [.filterEnd d] | none => [])
    ++ (match project_id with
        | some i =>
          match projects.find? (fun pr => pr.id == i) with
          | some pr => [.filterProject pr.name]
          | none => []
        | none => [])
    ++ (match payer_type with
        | some t => [.filterPayerType (t == "owner")]
        | none => [])
    ++ [.blank]
  else []

/-- src/app.py:438-449. -/
def summary_block (total tc pct tv net avg avgc : ℚ) (trend : List ℚ) : List Line :=
  [.summaryHeader, .rule50eq, .totalPaymentsLine total, .totalCommissionsLine tc pct,
   .totalVatLine tv, .netToOwnersLine net, .blank, .avgPaymentLine avg,
   .avgCommissionLine avgc]
  ++ (match trend with | g :: _ => [.trendLine g] | [] => [])
  ++ [.blank]

/-- src/app.py:452-473. -/
def payer_block (payments : List Payment) : List Line :=
  let op := owner_payments payments
  let tp := tenant_payments payments
  [.payerHeader, .rule50, .ownerCountLine op.length (owner_percentage payments)]
  ++ (if op.isEmpty then []
      else [.ownerTotalLine (total_payments op),
            .ownerAvgLine (total_payments op / op.length)])
  ++ [.tenantCountLine tp.length (tenant_percentage payments)]
  ++ (if tp.isEmpty then []
      else [.tenantTotalLine (total_payments tp),
            .tenantAvgLine (total_payments tp / tp.length)])
  ++ [.blank]

/-- Comparison used by `sorted(project_stats.items(), key=..., reverse=True)`. -/
def proj_desc (a b : String × ProjStats) : Prop := b.2.total ≤ a.2.total

instance : DecidableRel proj_desc := fun a b =>
  inferInstanceAs (Decidable (b.2.total ≤ a.2.total))

instance : IsTotal (String × ProjStats) proj_desc :=
  ⟨fun a b => (le_total b.2.total a.2.total).elim Or.inl Or.inr⟩

instance : IsTrans (String × ProjStats) proj_desc :=
  ⟨fun _ _ _ h1 h2 => le_trans h2 h1⟩

/-- src/app.py:476-486. -/
def projects_block (stats : List (String × ProjStats)) (total : ℚ) : List Line :=
  if stats.isEmpty then []
  else
    [.projectsHeader, .rule50]
    ++ (List.insertionSort proj_desc stats).flatMap (fun ns =>
        [.projectNameLine ns.1, .projectCountLine ns.2.count,
         .projectTotalLine ns.2.total
           (if 0 < total then ns.2.total / total * 100 else 0),
         .projectCommissionsLine ns.2.commissions, .blank])
    ++ [.blank]

/-- src/app.py:489-497; the six most recent months, newest first. -/
def monthly_block (monthly : List ((Int × Nat) × MonthStats)) : List Line :=
  if monthly.isEmpty then []
  else
    [.monthlyHeader, .rule50, .monthlyTableHeader, .rule70]
    ++ ((List.insertionSort key_desc (monthly.map Prod.fst)).take 6).map (fun k =>
        let st := (lookupA monthly k).getD ⟨0, 0, 0, 0, 0⟩
        Line.monthlyRow k st.count st.owners st.tenants st.total st.commissions)
    ++ [.blank]

/-- src/app.py:500-509; all quarters, newest first. -/
def quarterly_block (quarterly : List ((Int × Nat) × QuarterStats)) : List Line :=
  if quarterly.isEmpty then []
  else
    [.quarterlyHeader, .rule50]
    ++ (List.insertionSort key_desc (quarterly.map Prod.fst)).flatMap (fun k =>
        let st := (lookupA quarterly k).getD ⟨0, 0, 0⟩
        [Line.quarterNameLine k, Line.quarterCountLine st.count,
         Line.quarterTotalLine st.total, Line.quarterCommissionsLine st.commissions,
         Line.blank])

/-- src/app.py:512-518. -/
def kpi_block (pct avg dpd : ℚ) (nproj : Nat) : List Line :=
  [.kpiHeader, .rule50, .kpiCommissionRate pct, .kpiAvgDeal avg,
   .kpiDealsPerDay dpd, .kpiProjectCount nproj, .blank]

/-- The lines printed for one entry of the top-transactions loop
(src/app.py:525-531); the description line is skipped for a missing or
empty (falsy) description. -/
def top_entry (ip : Nat × Payment) : List Line :=
  [.topAmountLine ip.1 ip.2.amount, .topDateLine ip.2.date.dateOf,
   .topPayerLine (ip.2.payer_type == "owner")]
  ++ (match ip.2.description with
      | some s => if s = "" then [] else [.topDescriptionLine s]
      | none => [])
  ++ [.blank]

/-- src/app.py:521-531. -/
def top_block (payments : List Payment) : List Line :=
  if payments.isEmpty then []
  else
    [.topHeader, .rule50]
    ++ ((top_payments payments).enumFrom 1).flatMap top_entry

/-- src/app.py:534-552.  Line 547 parses the growth rate back out of the
`"+.2f"`-formatted trend string, so the thresholds are applied to the
two-decimal rounding of the growth rate. -/
def reco_block (pct : ℚ) (nproj : Nat) (trend : List ℚ) : List Line :=
  [.recoHeader, .rule50]
  ++ (if 10 < pct then [.recoHighCommission]
      else if pct < 3 then [.recoLowCommission] else [])
  ++ (if 5 < nproj then [.recoDiversified]
      else if nproj ≤ 2 then [.recoConcentrated] else [])
  ++ (match trend with
      | g :: _ =>
        let growth := round2 g
        if 10 < growth then [.recoStrongGrowth]
        else if growth < -5 then [.recoDecline] else []
      | [] => [])
  ++ [.blank]

/-- src/app.py:555-564. -/
def footer_block (now : DateTime) : List Line :=
  [.boxTop, .footerTitle, .boxBottom, .blank, .footerLine1, .footerLine2,
   .footerLine3, .blank, .footerContact, .footerTime now]

/-- The report body over the already-fetched, date-descending record list
(the `payments` variable of src/app.py:340). -/
def report_lines (payments : List Payment) (start_date end_date : Option Date)
    (project_id : Option Nat) (payer_type : Option String)
    (units : List Unit) (projects : List Project) (now : DateTime) : List Line :=
  header_block now payments.length
  ++ filters_block start_date end_date project_id payer_type projects
  ++ summary_block (total_payments payments) (total_commissions payments)
      (commission_percentage payments) (total_vat payments) (net_to_owners payments)
      (avg_payment payments) (avg_commission payments) (trend_analysis payments)
  ++ payer_block payments
  ++ projects_block (project_stats payments units projects) (total_payments payments)
  ++ monthly_block (monthly_stats payments)
  ++ quarterly_block (quarterly_stats payments)
  ++ kpi_block (commission_percentage payments) (avg_payment payments)
      (deals_per_day payments now) (project_stats payments units projects).length
  ++ top_block payments
  ++ reco_block (commission_percentage payments)
      (project_stats payments units projects).length (trend_analysis payments)
  ++ footer_block now

/-- The three report lines whose content comes from the wall clock —
`datetime.now()` at src/app.py:415 and 564, and the current date inside the
deals-per-day KPI at src/app.py:516 — rather than from the record set. -/
def is_clock_line : Line → Bool
  | .generatedAt _ => true
  | .kpiDealsPerDay _ => true
  | .footerTime _ => true
  | _ => false

/-- src/app.py:326-566: filter, order newest-first, aggregate, render. -/
def generate_comprehensive_report (store : List Payment)
    (start_date end_date : Option Date) (project_id : Option Nat)
    (payer_type : Option String) (units : List Unit) (projects : List Project)
    (now : DateTime) : List Line :=
  report_lines
    (List.insertionSort date_desc
      (filter_payments store start_date end_date project_id payer_type units))
    start_date end_date project_id payer_type units projects now

/-! ## Auxiliary definitions used by the verification -/

/-- A payment with its two rate columns cleared; two payments agree on
everything except `company_rate` and `vat_rate` iff their images under
`erase_rates` coincide. -/
def erase_rates (p : Payment) : Payment :=
  { p with company_rate := 0, vat_rate := 0 }

/-- A sample record (5% commission rate, 15% VAT rate). -/
def sample_payment_a : Payment :=
  ⟨1, "tenant", 1, 4500, ⟨2024, 1, 15, 10, 0, 0⟩, some "x", 0.05, 0.15,
    225, 33.75, 4241.25⟩

/-- The same record as `sample_payment_a` except for its two rate columns. -/
def sample_payment_b : Payment :=
  ⟨1, "tenant", 1, 4500, ⟨2024, 1, 15, 10, 0, 0⟩, some "x", 0.07, 0,
    225, 33.75, 4241.25⟩

/-- A sample record in a later month than `sample_payment_a`. -/
def sample_payment_feb : Payment :=
  ⟨2, "owner", 1, 5000, ⟨2024, 2, 10, 9, 0, 0⟩, none, 0.05, 0.15,
    250, 37.5, 4712.5⟩

/-- Specification-side accumulator: folding a list of contributing payments
into an optional per-project statistics record. -/
def accum_stats (o : Option ProjStats) (l : List Payment) : Option ProjStats :=
  l.foldl (fun o p => some (match o with
    | none => ⟨1, p.amount, p.company_commission⟩
    | some st => ⟨st.count + 1, st.total + p.amount,
        st.commissions + p.company_commission⟩)) o

/-! ## Basic rounding bounds -/

theorem abs_roundHalfEven_sub (y : ℚ) : |((roundHalfEven y : ℤ) : ℚ) - y| ≤ 1/2 := by
  have h0 : (⌊y⌋ : ℚ) ≤ y := Int.floor_le y
  have h1 : y < ⌊y⌋ + 1 := Int.lt_floor_add_one y
  rw [roundHalfEven]
  split_ifs with hc1 hc2 _ <;>
    · rw [abs_le]
      push_cast
      constructor <;> linarith

theorem abs_round2_sub (x : ℚ) : |round2 x - x| ≤ 1/200 := by
  have h := abs_roundHalfEven_sub (100 * x)
  rw [round2, show ((roundHalfEven (100 * x) : ℚ)/100 - x)
      = (((roundHalfEven (100 * x) : ℚ)) - 100 * x)/100 by ring, abs_div,
    show |(100 : ℚ)| = 100 by norm_num,
    div_le_iff (by norm_num : (0:ℚ) < 100)]
  linarith [h]

/-! ## Claims about the Breakdown Calculator -/

/-- C1: `calculate_payment_breakdown` returns exactly the triple given by the
three-step algorithm (commission, then VAT on commission, then net to owner,
each rounded to two decimals), and in particular maps `(1000, 0.05, 0.15)` to
`(50.00, 7.50, 942.50)` and `(0, 0.05, 0.15)` to `(0, 0, 0)`. -/
theorem c1_breakdown_formula :
    (∀ amount company_rate vat_rate : ℚ,
        calculate_payment_breakdown amount company_rate vat_rate "total" =
          (round2 (amount * company_rate),
           round2 (round2 (amount * company_rate) * vat_rate),
           round2 (amount - round2 (amount * company_rate) -
             round2 (round2 (amount * company_rate) * vat_rate)))) ∧
    calculate_payment_breakdown 1000 0.05 0.15 "total" = (50, 7.5, 942.5) ∧
    calculate_payment_breakdown 0 0.05 0.15 "total" = (0, 0, 0) := by
  refine ⟨fun a r v => rfl, ?_, ?_⟩ <;>
    norm_num [calculate_payment_breakdown, round2, roundHalfEven]

/-- C2: for `amount ≥ 0` and rates in `[0,1]`, the three outputs of the
Breakdown Calculator sum to the amount within a tolerance of `0.01`. -/
theorem c2_breakdown_sum_tolerance (amount company_rate vat_rate : ℚ)
    (h0 : 0 ≤ amount) (h1 : 0 ≤ company_rate) (h2 : company_rate ≤ 1)
    (h3 : 0 ≤ vat_rate) (h4 : vat_rate ≤ 1) :
    |(calculate_payment_breakdown amount company_rate vat_rate "total").1 +
      (calculate_payment_breakdown amount company_rate vat_rate "total").2.1 +
      (calculate_payment_breakdown amount company_rate vat_rate "total").2.2
      - amount| ≤ 1/100 := by
  show |round2 (amount * company_rate) +
      round2 (round2 (amount * company_rate) * vat_rate) +
      round2 (amount - round2 (amount * company_rate) -
        round2 (round2 (amount * company_rate) * vat_rate)) - amount| ≤ 1/100
  have h := abs_round2_sub (amount - round2 (amount * company_rate) -
    round2 (round2 (amount * company_rate) * vat_rate))
  rw [abs_le] at h ⊢
  constructor <;> linarith [h.1, h.2]

/-- C2 witness at `(1000, 0.05, 0.15)`. -/
theorem c2_breakdown_sum_tolerance_witness :
    |(calculate_payment_breakdown 1000 0.05 0.15 "total").1 +
      (calculate_payment_breakdown 1000 0.05 0.15 "total").2.1 +
      (calculate_payment_breakdown 1000 0.05 0.15 "total").2.2
      - 1000| ≤ 1/100 :=
  c2_breakdown_sum_tolerance 1000 0.05 0.15 (by norm_num) (by norm_num)
    (by norm_num) (by norm_num) (by norm_num)

/-- C3: on an empty record set the report generator does not fail: the
summary totals (amount, commissions, VAT, net to owners) are all 0, all
percentages (commission, owner, tenant) are 0, and the per-project, monthly,
quarterly and top-transactions sections are omitted from the formatted
text. -/
theorem c3_empty_record_set (units : List Unit) (projects : List Project)
    (now : DateTime) :
    total_payments [] = 0 ∧ total_commissions [] = 0 ∧ total_vat [] = 0 ∧
    net_to_owners [] = 0 ∧ commission_percentage [] = 0 ∧
    owner_percentage [] = 0 ∧ tenant_percentage [] = 0 ∧
    Line.projectsHeader ∉ generate_comprehensive_report [] none none none none units projects now ∧
    Line.monthlyHeader ∉ generate_comprehensive_report [] none none none none units projects now ∧
    Line.quarterlyHeader ∉ generate_comprehensive_report [] none none none none units projects now ∧
    Line.topHeader ∉ generate_comprehensive_report [] none none none none units projects now := by
  norm_num [generate_comprehensive_report, filter_payments, report_lines,
    header_block, filters_block, summary_block, payer_block, projects_block,
    monthly_block, quarterly_block, kpi_block, top_block, reco_block,
    footer_block, total_payments, total_commissions, total_vat, net_to_owners,
    commission_percentage, owner_percentage, tenant_percentage, avg_payment,
    avg_commission, trend_analysis, project_stats, monthly_stats,
    quarterly_stats, owner_payments, tenant_payments, deals_per_day,
    top_payments]
  simp

/-- C5 counterexample: with an end-date filter of `2024-01-15`, a record
dated `2024-01-15 12:00:00` — on the end day, but not at midnight — is
excluded from the filtered record set, although the claim says every record
dated on the end day at any time of that day is included. -/
theorem c5_counterexample :
    (⟨1, "tenant", 1, 4500, ⟨2024, 1, 15, 12, 0, 0⟩, none, 0.05, 0.15,
        225, 33.75, 4241.25⟩ : Payment) ∉
      filter_payments
        [⟨1, "tenant", 1, 4500, ⟨2024, 1, 15, 12, 0, 0⟩, none, 0.05, 0.15,
            225, 33.75, 4241.25⟩]
        none (some ⟨2024, 1, 15⟩) none none [] := by
  decide

/-- C5 (amended): the date filters keep exactly the records whose timestamp
lies between midnight of the start day and midnight of the end day,
inclusively.  Hence every record dated on the start day (at any time of that
day) passes the start bound, but of the records dated on the end day only
those at exactly `00:00:00` pass the end bound; records outside the bounds
are excluded. -/
theorem c5_date_filter_bounds (store : List Payment) (units : List Unit)
    (d1 d2 : Date) :
    (∀ p, p ∈ filter_payments store (some d1) (some d2) none none units ↔
        p ∈ store ∧ DateTime.le d1.toMidnight p.date ∧
          DateTime.le p.date d2.toMidnight) ∧
    (∀ t : DateTime, t.dateOf = d1 → DateTime.le d1.toMidnight t) ∧
    (∀ t : DateTime, t.dateOf = d2 →
        (DateTime.le t d2.toMidnight ↔ t.hour = 0 ∧ t.minute = 0 ∧ t.second = 0)) := by
  refine ⟨fun p => ?_, fun t ht => ?_, fun t ht => ?_⟩
  · simp only [filter_payments, List.mem_filter, decide_eq_true_eq]
    tauto
  · obtain ⟨ty, tmo, td, th, tmi, ts⟩ := t
    obtain rfl := ht.symm
    show DateTime.le ⟨ty, tmo, td, 0, 0, 0⟩ ⟨ty, tmo, td, th, tmi, ts⟩
    unfold DateTime.le
    dsimp only
    omega
  · obtain ⟨ty, tmo, td, th, tmi, ts⟩ := t
    obtain rfl := ht.symm
    show DateTime.le ⟨ty, tmo, td, th, tmi, ts⟩ ⟨ty, tmo, td, 0, 0, 0⟩ ↔ _
    unfold DateTime.le
    dsimp only [DateTime.dateOf]
    omega

/-- C8: the top-transactions list has at most five entries; it is sorted
descending by amount; every record not listed (the rest of the sorted
permutation of the input) has an amount no larger than any listed one; and
records of equal amount keep their relative order from the input sequence
(stability), the list being the 5-element prefix of that stable sort. -/
theorem c8_top_transactions (payments : List Payment) :
    (top_payments payments).length ≤ 5 ∧
    (top_payments payments).Pairwise (fun a b => b.amount ≤ a.amount) ∧
    (∀ a ∈ top_payments payments,
       ∀ b ∈ (List.insertionSort amount_desc payments).drop 5, b.amount ≤ a.amount) ∧
    List.Perm (List.insertionSort amount_desc payments) payments ∧
    (∀ a b, [a, b].Sublist payments → a.amount = b.amount →
       [a, b].Sublist (List.insertionSort amount_desc payments)) ∧
    top_payments payments = (List.insertionSort amount_desc payments).take 5 := by
  have hs : (List.insertionSort amount_desc payments).Pairwise amount_desc :=
    List.sorted_insertionSort amount_desc payments
  refine ⟨List.length_take_le _ _, hs.sublist (List.take_sublist _ _), ?_,
    List.perm_insertionSort _ _, fun a b hab hamt => ?_, rfl⟩
  · intro a ha b hb
    rw [← List.take_append_drop 5 (List.insertionSort amount_desc payments)] at hs
    exact (List.pairwise_append.mp hs).2.2 a ha b hb
  · exact List.pair_sublist_insertionSort (show amount_desc a b from le_of_eq hamt.symm) hab

/-! ### Rate-independence of the aggregation (C4) -/

theorem list_isEmpty_map {α β : Type} (f : α → β) (l : List α) :
    (l.map f).isEmpty = l.isEmpty := by
  cases l <;> rfl

theorem total_payments_map_erase (ps : List Payment) :
    total_payments (ps.map erase_rates) = total_payments ps := by
  unfold total_payments; rw [List.map_map]; rfl

theorem total_commissions_map_erase (ps : List Payment) :
    total_commissions (ps.map erase_rates) = total_commissions ps := by
  unfold total_commissions; rw [List.map_map]; rfl

theorem total_vat_map_erase (ps : List Payment) :
    total_vat (ps.map erase_rates) = total_vat ps := by
  unfold total_vat; rw [List.map_map]; rfl

theorem net_to_owners_map_erase (ps : List Payment) :
    net_to_owners (ps.map erase_rates) = net_to_owners ps := by
  unfold net_to_owners; rw [List.map_map]; rfl

theorem owner_payments_map_erase (ps : List Payment) :
    owner_payments (ps.map erase_rates) = (owner_payments ps).map erase_rates := by
  unfold owner_payments; rw [List.filter_map]; rfl

theorem tenant_payments_map_erase (ps : List Payment) :
    tenant_payments (ps.map erase_rates) = (tenant_payments ps).map erase_rates := by
  unfold tenant_payments; rw [List.filter_map]; rfl

theorem owner_percentage_map_erase (ps : List Payment) :
    owner_percentage (ps.map erase_rates) = owner_percentage ps := by
  unfold owner_percentage
  rw [owner_payments_map_erase, List.length_map, List.length_map, list_isEmpty_map]

theorem tenant_percentage_map_erase (ps : List Payment) :
    tenant_percentage (ps.map erase_rates) = tenant_percentage ps := by
  unfold tenant_percentage
  rw [tenant_payments_map_erase, List.length_map, List.length_map, list_isEmpty_map]

theorem commission_percentage_map_erase (ps : List Payment) :
    commission_percentage (ps.map erase_rates) = commission_percentage ps := by
  unfold commission_percentage
  rw [total_payments_map_erase, total_commissions_map_erase]

theorem avg_payment_map_erase (ps : List Payment) :
    avg_payment (ps.map erase_rates) = avg_payment ps := by
  unfold avg_payment
  rw [total_payments_map_erase, List.length_map, list_isEmpty_map]

theorem avg_commission_map_erase (ps : List Payment) :
    avg_commission (ps.map erase_rates) = avg_commission ps := by
  unfold avg_commission
  rw [total_commissions_map_erase, List.length_map, list_isEmpty_map]

theorem unit_id_erase (p : Payment) : (erase_rates p).unit_id = p.unit_id := rfl

theorem amount_erase (p : Payment) : (erase_rates p).amount = p.amount := rfl

theorem commission_erase (p : Payment) :
    (erase_rates p).company_commission = p.company_commission := rfl

theorem month_key_erase (p : Payment) : month_key (erase_rates p) = month_key p := rfl

theorem quarter_key_erase (p : Payment) :
    quarter_key (erase_rates p) = quarter_key p := rfl

theorem bumpMonth_erase (acc : List ((Int × Nat) × MonthStats)) (key : Int × Nat)
    (p : Payment) : bumpMonth acc key (erase_rates p) = bumpMonth acc key p := by
  induction acc with
  | nil => rfl
  | cons kv rest ih =>
    obtain ⟨k, st⟩ := kv
    simp only [bumpMonth]
    by_cases hk : k = key
    · rw [if_pos hk, if_pos hk]; rfl
    · rw [if_neg hk, if_neg hk, ih]

theorem project_stats_map_erase (ps : List Payment) (units : List Unit)
    (projects : List Project) :
    project_stats (ps.map erase_rates) units projects = project_stats ps units projects := by
  unfold project_stats
  rw [List.foldl_map]
  simp only [unit_id_erase, amount_erase, commission_erase]

theorem monthly_stats_map_erase (ps : List Payment) :
    monthly_stats (ps.map erase_rates) = monthly_stats ps := by
  unfold monthly_stats
  rw [List.foldl_map]
  simp only [month_key_erase, bumpMonth_erase]

theorem quarterly_stats_map_erase (ps : List Payment) :
    quarterly_stats (ps.map erase_rates) = quarterly_stats ps := by
  unfold quarterly_stats
  rw [List.foldl_map]
  simp only [quarter_key_erase, amount_erase, commission_erase]

theorem trend_analysis_map_erase (ps : List Payment) :
    trend_analysis (ps.map erase_rates) = trend_analysis ps := by
  simp only [trend_analysis, monthly_stats_map_erase]

theorem orderedInsert_map {α : Type} (r : α → α → Prop) [DecidableRel r]
    (f : α → α) (hf : ∀ a b, r (f a) (f b) ↔ r a b) (a : α) (l : List α) :
    (l.map f).orderedInsert r (f a) = (l.orderedInsert r a).map f := by
  induction l with
  | nil => rfl
  | cons b t ih =>
    simp only [List.map_cons, List.orderedInsert]
    by_cases h : r a b
    · rw [if_pos ((hf a b).mpr h), if_pos h, List.map_cons, List.map_cons]
    · rw [if_neg (fun hc => h ((hf a b).mp hc)), if_neg h, List.map_cons, ih]

theorem insertionSort_map {α : Type} (r : α → α → Prop) [DecidableRel r]
    (f : α → α) (hf : ∀ a b, r (f a) (f b) ↔ r a b) (l : List α) :
    List.insertionSort r (l.map f) = (List.insertionSort r l).map f := by
  induction l with
  | nil => rfl
  | cons a t ih =>
    simp only [List.map_cons, List.insertionSort, ih,
      orderedInsert_map r f hf]

theorem top_payments_map_erase (ps : List Payment) :
    top_payments (ps.map erase_rates) = (top_payments ps).map erase_rates := by
  unfold top_payments
  rw [insertionSort_map amount_desc erase_rates (fun _ _ => Iff.rfl),
    ← List.map_take]

theorem top_entry_enumFrom_map_erase (n : Nat) (l : List Payment) :
    ((l.map erase_rates).enumFrom n).flatMap top_entry
      = (l.enumFrom n).flatMap top_entry := by
  induction l generalizing n with
  | nil => rfl
  | cons p t ih =>
    simp only [List.map_cons, List.enumFrom_cons, List.flatMap_cons]
    rw [show top_entry (n, erase_rates p) = top_entry (n, p) from rfl, ih]

theorem payer_block_map_erase (ps : List Payment) :
    payer_block (ps.map erase_rates) = payer_block ps := by
  simp only [payer_block, owner_payments_map_erase, tenant_payments_map_erase,
    owner_percentage_map_erase, tenant_percentage_map_erase,
    total_payments_map_erase, List.length_map, list_isEmpty_map]

theorem deals_per_day_map_erase (ps : List Payment) (now : DateTime) :
    deals_per_day (ps.map erase_rates) now = deals_per_day ps now := by
  unfold deals_per_day
  rw [List.getLast?_map, List.length_map]
  cases ps.getLast? <;> rfl

theorem top_block_map_erase (ps : List Payment) :
    top_block (ps.map erase_rates) = top_block ps := by
  unfold top_block
  rw [list_isEmpty_map, top_payments_map_erase, top_entry_enumFrom_map_erase]

theorem report_lines_map_erase (ps : List Payment)
    (start_date end_date : Option Date) (project_id : Option Nat)
    (payer_type : Option String) (units : List Unit) (projects : List Project)
    (now : DateTime) :
    report_lines (ps.map erase_rates) start_date end_date project_id payer_type
        units projects now
      = report_lines ps start_date end_date project_id payer_type units
          projects now := by
  simp only [report_lines, total_payments_map_erase, total_commissions_map_erase,
    total_vat_map_erase, net_to_owners_map_erase, commission_percentage_map_erase,
    avg_payment_map_erase, avg_commission_map_erase, trend_analysis_map_erase,
    payer_block_map_erase, project_stats_map_erase, monthly_stats_map_erase,
    quarterly_stats_map_erase, deals_per_day_map_erase, top_block_map_erase,
    List.length_map]

/-- C4: the Report Aggregator computes its totals and groupings from the
records' stored `company_commission`, `vat_on_commission` and `net_to_owner`
columns and never recomputes them from `amount`, `company_rate` and
`vat_rate`: two record lists that agree on every column except the two rate
columns yield identical aggregates and an identical report body. -/
theorem c4_aggregates_use_stored_fields (ps₁ ps₂ : List Payment)
    (units : List Unit) (projects : List Project)
    (start_date end_date : Option Date) (project_id : Option Nat)
    (payer_type : Option String) (now : DateTime)
    (h : ps₁.map erase_rates = ps₂.map erase_rates) :
    total_payments ps₁ = total_payments ps₂ ∧
    total_commissions ps₁ = total_commissions ps₂ ∧
    total_vat ps₁ = total_vat ps₂ ∧
    net_to_owners ps₁ = net_to_owners ps₂ ∧
    commission_percentage ps₁ = commission_percentage ps₂ ∧
    project_stats ps₁ units projects = project_stats ps₂ units projects ∧
    monthly_stats ps₁ = monthly_stats ps₂ ∧
    quarterly_stats ps₁ = quarterly_stats ps₂ ∧
    trend_analysis ps₁ = trend_analysis ps₂ ∧
    report_lines ps₁ start_date end_date project_id payer_type units projects now
      = report_lines ps₂ start_date end_date project_id payer_type units projects now := by
  refine ⟨?_, ?_, ?_, ?_, ?_, ?_, ?_, ?_, ?_, ?_⟩
  · rw [← total_payments_map_erase ps₁, h, total_payments_map_erase]
  · rw [← total_commissions_map_erase ps₁, h, total_commissions_map_erase]
  · rw [← total_vat_map_erase ps₁, h, total_vat_map_erase]
  · rw [← net_to_owners_map_erase ps₁, h, net_to_owners_map_erase]
  · rw [← commission_percentage_map_erase ps₁, h, commission_percentage_map_erase]
  · rw [← project_stats_map_erase ps₁, h, project_stats_map_erase]
  · rw [← monthly_stats_map_erase ps₁, h, monthly_stats_map_erase]
  · rw [← quarterly_stats_map_erase ps₁, h, quarterly_stats_map_erase]
  · rw [← trend_analysis_map_erase ps₁, h, trend_analysis_map_erase]
  · rw [← report_lines_map_erase ps₁, h, report_lines_map_erase]

/-- C4 witness: two concrete one-record lists differing only in the rate
columns produce identical aggregates and report body. -/
theorem c4_aggregates_use_stored_fields_witness :
    total_payments [sample_payment_a] = total_payments [sample_payment_b] ∧
    total_commissions [sample_payment_a] = total_commissions [sample_payment_b] ∧
    total_vat [sample_payment_a] = total_vat [sample_payment_b] ∧
    net_to_owners [sample_payment_a] = net_to_owners [sample_payment_b] ∧
    commission_percentage [sample_payment_a] = commission_percentage [sample_payment_b] ∧
    project_stats [sample_payment_a] [] [] = project_stats [sample_payment_b] [] [] ∧
    monthly_stats [sample_payment_a] = monthly_stats [sample_payment_b] ∧
    quarterly_stats [sample_payment_a] = quarterly_stats [sample_payment_b] ∧
    trend_analysis [sample_payment_a] = trend_analysis [sample_payment_b] ∧
    report_lines [sample_payment_a] none none none none [] [] ⟨2024, 2, 1, 0, 0, 0⟩
      = report_lines [sample_payment_b] none none none none [] [] ⟨2024, 2, 1, 0, 0, 0⟩ :=
  c4_aggregates_use_stored_fields [sample_payment_a] [sample_payment_b]
    [] [] none none none none ⟨2024, 2, 1, 0, 0, 0⟩ rfl

/-! ### The per-project grouping (C6) -/

theorem total_payments_cons (p : Payment) (t : List Payment) :
    total_payments (p :: t) = p.amount + total_payments t := by
  simp [total_payments]

theorem total_commissions_cons (p : Payment) (t : List Payment) :
    total_commissions (p :: t) = p.company_commission + total_commissions t := by
  simp [total_commissions]

theorem lookupA_bumpProj (acc : List (String × ProjStats)) (name : String)
    (amt comm : ℚ) (k : String) :
    lookupA (bumpProj acc name amt comm) k =
      if k = name then
        some (match lookupA acc k with
          | none => ⟨1, amt, comm⟩
          | some st => ⟨st.count + 1, st.total + amt, st.commissions + comm⟩)
      else lookupA acc k := by
  induction acc with
  | nil =>
    by_cases h : k = name
    · subst h; simp [bumpProj, lookupA]
    · simp [bumpProj, lookupA, h, Ne.symm h]
  | cons kv rest ih =>
    obtain ⟨k', st⟩ := kv
    by_cases h1 : k' = name
    · subst h1
      by_cases h2 : k = k'
      · subst h2; simp [bumpProj, lookupA]
      · simp [bumpProj, lookupA, h2, Ne.symm h2]
    · by_cases h2 : k' = k
      · subst h2
        simp [bumpProj, lookupA, h1, Ne.symm h1]
      · simp [bumpProj, lookupA, h1, h2, ih]

theorem lookupA_project_fold (ps : List Payment) (units : List Unit)
    (projects : List Project) (acc : List (String × ProjStats)) (k : String) :
    lookupA (ps.foldl (fun acc p =>
        match resolve_project_name units projects p.unit_id with
        | none => acc
        | some name => bumpProj acc name p.amount p.company_commission) acc) k
      = accum_stats (lookupA acc k) (ps.filter (fun p =>
          decide (resolve_project_name units projects p.unit_id = some k))) := by
  induction ps generalizing acc with
  | nil => rfl
  | cons p t ih =>
    rw [List.foldl_cons, List.filter_cons]
    rcases hr : resolve_project_name units projects p.unit_id with _ | name
    · simp only [hr]
      rw [if_neg (by simp)]
      exact ih acc
    · by_cases hk : name = k
      · subst hk
        simp only [hr]
        rw [if_pos (by simp), ih, lookupA_bumpProj, if_pos rfl]
        rfl
      · simp only [hr]
        rw [if_neg (by simp [hk]), ih, lookupA_bumpProj,
          if_neg (Ne.symm hk)]

theorem accum_stats_some (l : List Payment) (s : ProjStats) :
    accum_stats (some s) l = some ⟨s.count + l.length,
      s.total + total_payments l, s.commissions + total_commissions l⟩ := by
  induction l generalizing s with
  | nil => simp [accum_stats, total_payments, total_commissions]
  | cons p t ih =>
    show accum_stats (some ⟨s.count + 1, s.total + p.amount,
      s.commissions + p.company_commission⟩) t = _
    rw [ih, total_payments_cons, total_commissions_cons]
    simp only [Option.some.injEq, ProjStats.mk.injEq, List.length_cons]
    refine ⟨by omega, by ring, by ring⟩

theorem accum_stats_none (l : List Payment) :
    accum_stats none l = if l.isEmpty then none
      else some ⟨l.length, total_payments l, total_commissions l⟩ := by
  cases l with
  | nil => rfl
  | cons p t =>
    show accum_stats (some ⟨1, p.amount, p.company_commission⟩) t = _
    rw [accum_stats_some, total_payments_cons, total_commissions_cons]
    simp only [List.isEmpty_cons, List.length_cons, Bool.false_eq_true, if_false,
      Option.some.injEq, ProjStats.mk.injEq]
    refine ⟨by omega, by ring, by ring⟩

/-- C6 counterexample: a one-record set whose record's unit is unresolvable —
the record contributes to no project group (it is skipped, rather than being
grouped under the fallback label). -/
theorem c6_counterexample :
    (¬ ∃ name stats, (name, stats) ∈ project_stats [sample_payment_a] [] []) ∧
    ([sample_payment_a] : List Payment) ≠ [] := by
  constructor
  · rintro ⟨name, stats, h⟩
    have he : project_stats [sample_payment_a] [] [] = [] := rfl
    rw [he] at h
    exact List.not_mem_nil _ h
  · exact List.cons_ne_nil _ _

/-- C6 (amended): the per-project grouping resolves each record's unit's
project name, falling back to the label `"غير محدد"` exactly when the unit
exists but its project cannot be resolved; records whose *unit* cannot be
resolved are skipped.  For each project name the group holds the count,
amount total and commission total of exactly the contributing records, and
the presentation list is a permutation of the groups sorted descending by
amount total. -/
theorem c6_project_grouping (payments : List Payment) (units : List Unit)
    (projects : List Project) :
    (∀ name, lookupA (project_stats payments units projects) name =
        (if (payments.filter (fun p =>
              decide (resolve_project_name units projects p.unit_id = some name))).isEmpty
         then none
         else some ⟨(payments.filter (fun p =>
                decide (resolve_project_name units projects p.unit_id = some name))).length,
              total_payments (payments.filter (fun p =>
                decide (resolve_project_name units projects p.unit_id = some name))),
              total_commissions (payments.filter (fun p =>
                decide (resolve_project_name units projects p.unit_id = some name)))⟩)) ∧
    (∀ uid u, units.find? (fun x => x.id == uid) = some u →
        projects.find? (fun pr => pr.id == u.project_id) = none →
        resolve_project_name units projects uid = some "غير محدد") ∧
    (∀ uid, units.find? (fun x => x.id == uid) = none →
        resolve_project_name units projects uid = none) ∧
    List.Perm (List.insertionSort proj_desc (project_stats payments units projects))
      (project_stats payments units projects) ∧
    (List.insertionSort proj_desc (project_stats payments units projects)).Pairwise
      (fun a b => b.2.total ≤ a.2.total) := by
  refine ⟨fun name => ?_, fun uid u h1 h2 => ?_, fun uid h1 => ?_,
    List.perm_insertionSort _ _,
    List.sorted_insertionSort proj_desc (project_stats payments units projects)⟩
  · rw [project_stats, lookupA_project_fold, show lookupA [] name = none from rfl,
      accum_stats_none]
  · simp [resolve_project_name, h1, h2]
  · simp [resolve_project_name, h1]

/-! ### The monthly trend (C7) -/

theorem lookupA_isSome_of_mem_keys {K V : Type} [DecidableEq K]
    (l : List (K × V)) (k : K) (h : k ∈ l.map Prod.fst) :
    ∃ v, lookupA l k = some v := by
  induction l with
  | nil => simp at h
  | cons kv rest ih =>
    obtain ⟨k', v⟩ := kv
    by_cases hk : k' = k
    · exact ⟨v, by simp [lookupA, hk]⟩
    · have hm : k ∈ rest.map Prod.fst := by
        simp only [List.map_cons, List.mem_cons] at h
        rcases h with h | h
        · exact absurd h.symm hk
        · exact h
      obtain ⟨v', hv⟩ := ih hm
      exact ⟨v', by simp [lookupA, hk, hv]⟩

theorem lookupA_mem {K V : Type} [DecidableEq K] {l : List (K × V)} {k : K}
    {v : V} (h : lookupA l k = some v) : (k, v) ∈ l := by
  induction l with
  | nil => simp [lookupA] at h
  | cons kv rest ih =>
    obtain ⟨k0, v0⟩ := kv
    by_cases hk : k0 = k
    · subst hk
      obtain rfl : v0 = v := by simpa [lookupA] using h
      exact List.mem_cons_self _ _
    · simp only [lookupA, if_neg hk] at h
      exact List.mem_cons_of_mem _ (ih h)

theorem bumpMonth_total_pos (acc : List ((Int × Nat) × MonthStats))
    (key : Int × Nat) (p : Payment) (hp : 0 < p.amount)
    (ha : ∀ kv ∈ acc, 0 < kv.2.total) :
    ∀ kv ∈ bumpMonth acc key p, 0 < kv.2.total := by
  induction acc with
  | nil =>
    intro kv hkv
    simp only [bumpMonth, List.mem_singleton] at hkv
    subst hkv
    exact hp
  | cons kv0 rest ih =>
    obtain ⟨k, st⟩ := kv0
    intro kv hkv
    have hhead : 0 < st.total := ha (k, st) (by simp)
    by_cases hk : k = key
    · simp only [bumpMonth, if_pos hk] at hkv
      rcases List.mem_cons.mp hkv with h | h
      · subst h
        exact add_pos hhead hp
      · exact ha kv (List.mem_cons_of_mem _ h)
    · simp only [bumpMonth, if_neg hk] at hkv
      rcases List.mem_cons.mp hkv with h | h
      · subst h
        exact hhead
      · exact ih (fun kv' hkv' => ha kv' (List.mem_cons_of_mem _ hkv')) kv h

theorem monthly_total_pos (ps : List Payment)
    (hp : ∀ p ∈ ps, 0 < p.amount) :
    ∀ kv ∈ monthly_stats ps, 0 < kv.2.total := by
  suffices h : ∀ (l : List Payment) (acc : List ((Int × Nat) × MonthStats)),
      (∀ p ∈ l, 0 < p.amount) → (∀ kv ∈ acc, 0 < kv.2.total) →
      ∀ kv ∈ l.foldl (fun acc p => bumpMonth acc (month_key p) p) acc,
        0 < kv.2.total by
    exact h ps [] hp (by simp)
  intro l
  induction l with
  | nil => exact fun acc _ ha kv hkv => ha kv hkv
  | cons p t ih =>
    intro acc hp' ha kv hkv
    rw [List.foldl_cons] at hkv
    exact ih _ (fun q hq => hp' q (List.mem_cons_of_mem _ hq))
      (bumpMonth_total_pos acc (month_key p) p (hp' p (List.mem_cons_self _ _)) ha)
      kv hkv

/-- C7: with the data model's positive amounts, the trend indicator is
omitted exactly when fewer than two monthly buckets exist (the claim's other
omission case, a zero previous total, cannot occur for positive amounts);
when at least two buckets exist the indicator is present and is computed
from the two most recent monthly periods as
`(current.total - previous.total) / previous.total * 100`. -/
theorem c7_monthly_trend (payments : List Payment)
    (hpos : ∀ p ∈ payments, 0 < p.amount) :
    (trend_analysis payments = [] ↔ (monthly_stats payments).length < 2) ∧
    (∀ cur prev rest,
        (List.insertionSort key_le ((monthly_stats payments).map Prod.fst)).reverse
          = cur :: prev :: rest →
        (∀ k ∈ (monthly_stats payments).map Prod.fst, key_le k cur) ∧
        (∀ k ∈ rest, key_le k prev) ∧ key_le prev cur ∧
        ∃ cs ps', lookupA (monthly_stats payments) cur = some cs ∧
          lookupA (monthly_stats payments) prev = some ps' ∧ 0 < ps'.total ∧
          trend_analysis payments
            = [(cs.total - ps'.total) / ps'.total * 100]) := by
  have hlen : (List.insertionSort key_le ((monthly_stats payments).map Prod.fst)).length
      = (monthly_stats payments).length := by
    rw [(List.perm_insertionSort key_le _).length_eq, List.length_map]
  have hsor : (List.insertionSort key_le ((monthly_stats payments).map Prod.fst)).Pairwise key_le :=
    List.sorted_insertionSort key_le _
  by_cases hc : 1 < (monthly_stats payments).length
  · rcases hrev : (List.insertionSort key_le ((monthly_stats payments).map Prod.fst)).reverse
      with _ | ⟨c, rest0⟩
    · exfalso
      have hl := congrArg List.length hrev
      simp only [List.length_reverse, hlen, List.length_nil] at hl
      omega
    rcases rest0 with _ | ⟨p', r⟩
    · exfalso
      have hl := congrArg List.length hrev
      simp only [List.length_reverse, hlen, List.length_cons, List.length_nil] at hl
      omega
    have hmon : List.insertionSort key_le ((monthly_stats payments).map Prod.fst)
        = (r.reverse ++ [p']) ++ [c] := by
      have hx := congrArg List.reverse hrev
      simpa [List.reverse_cons, List.append_assoc] using hx
    have hp'mem : p' ∈ (monthly_stats payments).map Prod.fst := by
      have hx : p' ∈ List.insertionSort key_le ((monthly_stats payments).map Prod.fst) := by
        rw [hmon]; simp
      exact (List.perm_insertionSort key_le _).subset hx
    have hcmem : c ∈ (monthly_stats payments).map Prod.fst := by
      have hx : c ∈ List.insertionSort key_le ((monthly_stats payments).map Prod.fst) := by
        rw [hmon]; simp
      exact (List.perm_insertionSort key_le _).subset hx
    obtain ⟨cs, hcs⟩ := lookupA_isSome_of_mem_keys _ c hcmem
    obtain ⟨ps', hps⟩ := lookupA_isSome_of_mem_keys _ p' hp'mem
    have hpt : 0 < ps'.total :=
      monthly_total_pos payments hpos (p', ps') (lookupA_mem hps)
    have h2le : 2 ≤ (List.insertionSort key_le ((monthly_stats payments).map Prod.fst)).length := by
      omega
    have hT : trend_analysis payments
        = [(cs.total - ps'.total) / ps'.total * 100] := by
      simp only [trend_analysis]
      rw [if_pos hc, if_pos h2le, hrev]
      simp only [hcs, hps, Option.getD_some]
      rw [if_pos hpt]
    have hP := List.pairwise_append.mp (hmon ▸ hsor)
    have hP1 := List.pairwise_append.mp hP.1
    refine ⟨⟨fun habs => ?_, fun habs => ?_⟩, fun cur prev rest h_eq => ?_⟩
    · rw [hT] at habs
      exact absurd habs (List.cons_ne_nil _ _)
    · exact absurd hc (by omega)
    · injection h_eq with h1 h23
      injection h23 with h2 h3
      subst h1
      subst h2
      subst h3
      refine ⟨fun k hk => ?_, fun k hk => ?_, ?_, cs, ps', hcs, hps, hpt, hT⟩
      · have hk' : k ∈ List.insertionSort key_le ((monthly_stats payments).map Prod.fst) :=
          ((List.perm_insertionSort key_le _).mem_iff).mpr hk
        rw [hmon] at hk'
        rcases List.mem_append.mp hk' with h | h
        · exact hP.2.2 k h c (by simp)
        · have hkc : k = c := by simpa using h
          subst hkc
          exact key_le_refl k
      · exact hP1.2.2 k (List.mem_reverse.mpr hk) p' (by simp)
      · exact hP.2.2 p' (List.mem_append_right _ (by simp)) c (by simp)
  · have hTnil : trend_analysis payments = [] := by
      simp only [trend_analysis]
      rw [if_neg hc]
    refine ⟨⟨fun _ => by omega, fun _ => hTnil⟩, fun cur prev rest h_eq => ?_⟩
    exfalso
    have hl := congrArg List.length h_eq
    simp only [List.length_reverse, hlen, List.length_cons] at hl
    omega

/-- C7 witness: a two-record, two-month record set with positive amounts. -/
theorem c7_monthly_trend_witness :
    (∀ p ∈ [sample_payment_a, sample_payment_feb], 0 < p.amount) ∧
    ((trend_analysis [sample_payment_a, sample_payment_feb] = [] ↔
        (monthly_stats [sample_payment_a, sample_payment_feb]).length < 2) ∧
    (∀ cur prev rest,
        (List.insertionSort key_le
            ((monthly_stats [sample_payment_a, sample_payment_feb]).map Prod.fst)).reverse
          = cur :: prev :: rest →
        (∀ k ∈ (monthly_stats [sample_payment_a, sample_payment_feb]).map Prod.fst,
            key_le k cur) ∧
        (∀ k ∈ rest, key_le k prev) ∧ key_le prev cur ∧
        ∃ cs ps',
          lookupA (monthly_stats [sample_payment_a, sample_payment_feb]) cur = some cs ∧
          lookupA (monthly_stats [sample_payment_a, sample_payment_feb]) prev = some ps' ∧
          0 < ps'.total ∧
          trend_analysis [sample_payment_a, sample_payment_feb]
            = [(cs.total - ps'.total) / ps'.total * 100])) := by
  have hp : ∀ p ∈ [sample_payment_a, sample_payment_feb], 0 < p.amount := by
    intro p hmem
    rcases List.mem_cons.mp hmem with rfl | hmem
    · norm_num [sample_payment_a]
    · rcases List.mem_cons.mp hmem with rfl | hmem
      · norm_num [sample_payment_feb]
      · simp at hmem
  exact ⟨hp, c7_monthly_trend _ hp⟩

/-! ### Clock dependence of the report (C9) -/

theorem filter_non_clock_header (now : DateTime) (n : Nat) :
    (header_block now n).filter (fun l => !is_clock_line l)
      = [Line.boxTop, .mainTitle, .boxBottom, .blank, .recordCount n,
         .autoStatus, .blank] := rfl

theorem filter_non_clock_kpi (pct avg dpd : ℚ) (nproj : Nat) :
    (kpi_block pct avg dpd nproj).filter (fun l => !is_clock_line l)
      = [Line.kpiHeader, .rule50, .kpiCommissionRate pct, .kpiAvgDeal avg,
         .kpiProjectCount nproj, .blank] := rfl

theorem filter_non_clock_footer (now : DateTime) :
    (footer_block now).filter (fun l => !is_clock_line l)
      = [Line.boxTop, .footerTitle, .boxBottom, .blank, .footerLine1,
         .footerLine2, .footerLine3, .blank, .footerContact] := rfl

/-- C9 counterexample: two invocations on the same (empty) record set with
the same filters but one second apart produce different formatted text,
because the report embeds the generation timestamp. -/
theorem c9_counterexample :
    generate_comprehensive_report [] none none none none [] [] ⟨2024, 1, 1, 0, 0, 0⟩
      ≠ generate_comprehensive_report [] none none none none [] [] ⟨2024, 1, 1, 0, 0, 1⟩ := by
  norm_num [generate_comprehensive_report, filter_payments, report_lines,
    header_block, filters_block, summary_block, payer_block, projects_block,
    monthly_block, quarterly_block, kpi_block, top_block, reco_block,
    footer_block, total_payments, total_commissions, total_vat, net_to_owners,
    commission_percentage, owner_percentage, tenant_percentage, avg_payment,
    avg_commission, trend_analysis, project_stats, monthly_stats,
    quarterly_stats, owner_payments, tenant_payments, deals_per_day,
    top_payments]

/-- C9 (amended): given the same record store and filters, the aggregation
results are functions of that input alone, and the formatted text depends on
the invocation time only through the three clock-derived lines (generation
timestamp, deals-per-day KPI, footer time): stripping those three lines
yields identical text for any two invocation times. -/
theorem c9_report_deterministic_modulo_clock (store : List Payment)
    (start_date end_date : Option Date) (project_id : Option Nat)
    (payer_type : Option String) (units : List Unit) (projects : List Project)
    (now now' : DateTime) :
    (generate_comprehensive_report store start_date end_date project_id
        payer_type units projects now).filter (fun l => !is_clock_line l)
      = (generate_comprehensive_report store start_date end_date project_id
          payer_type units projects now').filter (fun l => !is_clock_line l) := by
  unfold generate_comprehensive_report report_lines
  simp only [List.filter_append, filter_non_clock_header, filter_non_clock_kpi,
    filter_non_clock_footer]

/-- C10: the result of `calculate_payment_breakdown` does not depend on its
`commission_deducted_from` parameter; the alternative policy named by the
parameter is not implemented. -/
theorem c10_deducted_from_parameter_ignored :
    ∀ (amount company_rate vat_rate : ℚ) (s t : String),
      calculate_payment_breakdown amount company_rate vat_rate s =
        calculate_payment_breakdown amount company_rate vat_rate t :=
  fun _ _ _ _ _ => rfl

end Kathib
